import Mathlib

/-!
Verification of the Athena backend tool-calling subsystem: the tool
registry, the OpenAI-style and Anthropic-style tool adapters, and the
`execute` boundary of the two concrete tools.  Python dictionaries whose
values are JSON trees are modelled as association lists over a `Json`
inductive; provider SDK response objects, whose attributes the code probes
with `hasattr`, are modelled as structures with `Option`-typed fields
(`none` = attribute absent).  The Python standard-library helpers
`json.dumps` / `json.loads` are modelled by an executable serializer and
recursive-descent parser over the same `Json` type (numeric literals are
restricted to integers; the claims never exercise floats).
-/

set_option autoImplicit false

namespace Athena

/-- A JSON value tree, the model of decoded Python JSON data. -/
inductive Json where
  | null
  | bool (b : Bool)
  | num (n : Int)
  | str (s : String)
  | arr (elems : List Json)
  | obj (entries : List (String × Json))

/-- A Python dictionary with string keys and JSON-like values. -/
abbrev PyDict := List (String × Json)

/-- `d.get(key, default)` on a Python dictionary. -/
def pyGet (d : PyDict) (key : String) (default : Json) : Json :=
  match d.lookup key with
  | some v => v
  | none => default

/-- Hex digit character for `\uXXXX` escapes (lower case, as Python emits). -/
def hexDigit (n : Nat) : Char :=
  if n < 10 then Char.ofNat (48 + n) else Char.ofNat (87 + n)

/-- Escape one character the way `json.dumps` (default `ensure_ascii=True`)
renders it inside a string literal. -/
def escapeChar (c : Char) : String :=
  if c = '"' then "\\\""
  else if c = '\\' then "\\\\"
  else if c = '\n' then "\\n"
  else if c = '\t' then "\\t"
  else if c = '\r' then "\\r"
  else if c = Char.ofNat 8 then "\\b"
  else if c = Char.ofNat 12 then "\\f"
  else if c.toNat < 32 ∨ 126 < c.toNat then
    "\\u" ++ String.mk [hexDigit (c.toNat / 4096 % 16), hexDigit (c.toNat / 256 % 16),
                        hexDigit (c.toNat / 16 % 16), hexDigit (c.toNat % 16)]
  else String.singleton c

/-- Escape a whole string for a JSON string literal. -/
def escapeString (s : String) : String :=
  String.join (s.data.map escapeChar)

mutual

/-- Model of Python `json.dumps` with its default separators
(item separator comma-space, key separator colon-space). -/
def dumps : Json → String
  | .null => "null"
  | .bool true => "true"
  | .bool false => "false"
  | .num n => toString n
  | .str s => "\"" ++ escapeString s ++ "\""
  | .arr xs => "[" ++ dumpsElems xs ++ "]"
  | .obj kvs => "\x7b" ++ dumpsEntries kvs ++ "\x7d"

/-- Serialize array elements, comma-space separated. -/
def dumpsElems : List Json → String
  | [] => ""
  | [x] => dumps x
  | x :: y :: xs => dumps x ++ ", " ++ dumpsElems (y :: xs)

/-- Serialize object entries, comma-space separated, colon-space after keys. -/
def dumpsEntries : List (String × Json) → String
  | [] => ""
  | [(k, v)] => "\"" ++ escapeString k ++ "\": " ++ dumps v
  | (k, v) :: e :: es => "\"" ++ escapeString k ++ "\": " ++ dumps v ++ ", " ++ dumpsEntries (e :: es)

end

/-- Skip JSON whitespace. -/
def skipWs : List Char → List Char
  | [] => []
  | c :: cs => if c = ' ' ∨ c = '\t' ∨ c = '\n' ∨ c = '\r' then skipWs cs else c :: cs

/-- Value of a hexadecimal digit character, if it is one. -/
def hexVal (c : Char) : Option Nat :=
  if '0' ≤ c ∧ c ≤ '9' then some (c.toNat - 48)
  else if 'a' ≤ c ∧ c ≤ 'f' then some (c.toNat - 87)
  else if 'A' ≤ c ∧ c ≤ 'F' then some (c.toNat - 55)
  else none

/-- Parse the body of a JSON string literal (the opening quote already
consumed), handling the standard escapes. -/
def parseStringBody (acc : List Char) : List Char → Option (String × List Char)
  | [] => none
  | '"' :: rest => some (String.mk acc.reverse, rest)
  | '\\' :: rest =>
    match rest with
    | '"' :: r => parseStringBody ('"' :: acc) r
    | '\\' :: r => parseStringBody ('\\' :: acc) r
    | '/' :: r => parseStringBody ('/' :: acc) r
    | 'n' :: r => parseStringBody ('\n' :: acc) r
    | 't' :: r => parseStringBody ('\t' :: acc) r
    | 'r' :: r => parseStringBody ('\r' :: acc) r
    | 'b' :: r => parseStringBody (Char.ofNat 8 :: acc) r
    | 'f' :: r => parseStringBody (Char.ofNat 12 :: acc) r
    | 'u' :: h1 :: h2 :: h3 :: h4 :: r =>
      match hexVal h1, hexVal h2, hexVal h3, hexVal h4 with
      | some a, some b, some c, some d =>
        parseStringBody (Char.ofNat (((a * 16 + b) * 16 + c) * 16 + d) :: acc) r
      | _, _, _, _ => none
    | _ => none
  | c :: rest => parseStringBody (c :: acc) rest

/-- Split a leading run of decimal digits from the input. -/
def takeDigits : List Char → List Char × List Char
  | [] => ([], [])
  | c :: cs =>
    if c.isDigit then
      let (ds, r) := takeDigits cs
      (c :: ds, r)
    else ([], c :: cs)

/-- Decimal value of a digit run. -/
def digitsToNat (ds : List Char) : Nat :=
  ds.foldl (fun n c => n * 10 + (c.toNat - 48)) 0

/-- True when the next character would make the numeral a float
(outside this integer-only model). -/
def floatFollows : List Char → Bool
  | [] => false
  | c :: _ => c = '.' ∨ c = 'e' ∨ c = 'E'

/-- Parse an integer JSON numeral. -/
def parseNumber : List Char → Option (Json × List Char)
  | '-' :: cs =>
    match takeDigits cs with
    | ([], _) => none
    | (ds, r) => if floatFollows r then none else some (.num (-(digitsToNat ds : Int)), r)
  | cs =>
    match takeDigits cs with
    | ([], _) => none
    | (ds, r) => if floatFollows r then none else some (.num (digitsToNat ds), r)

mutual

/-- Fueled recursive-descent JSON value parser (model of `json.loads`). -/
def parseValue : Nat → List Char → Option (Json × List Char)
  | 0, _ => none
  | Nat.succ fuel, cs =>
    match skipWs cs with
    | 'n' :: 'u' :: 'l' :: 'l' :: rest => some (.null, rest)
    | 't' :: 'r' :: 'u' :: 'e' :: rest => some (.bool true, rest)
    | 'f' :: 'a' :: 'l' :: 's' :: 'e' :: rest => some (.bool false, rest)
    | '"' :: rest =>
      match parseStringBody [] rest with
      | some (s, r) => some (.str s, r)
      | none => none
    | '[' :: rest =>
      (match skipWs rest with
       | ']' :: r => some (.arr [], r)
       | cs2 =>
         match parseElems fuel cs2 with
         | some (xs, r) => some (.arr xs, r)
         | none => none)
    | '\x7b' :: rest =>
      (match skipWs rest with
       | '\x7d' :: r => some (.obj [], r)
       | cs2 =>
         match parseMembers fuel cs2 with
         | some (kvs, r) => some (.obj kvs, r)
         | none => none)
    | rest => parseNumber rest

/-- Parse one-or-more array elements up to the closing bracket. -/
def parseElems : Nat → List Char → Option (List Json × List Char)
  | 0, _ => none
  | Nat.succ fuel, cs =>
    match parseValue fuel cs with
    | none => none
    | some (v, r) =>
      match skipWs r with
      | ',' :: r2 =>
        (match parseElems fuel r2 with
         | some (vs, r3) => some (v :: vs, r3)
         | none => none)
      | ']' :: r2 => some ([v], r2)
      | _ => none

/-- Parse one-or-more object members up to the closing brace. -/
def parseMembers : Nat → List Char → Option (List (String × Json) × List Char)
  | 0, _ => none
  | Nat.succ fuel, cs =>
    match skipWs cs with
    | '"' :: rest =>
      (match parseStringBody [] rest with
       | none => none
       | some (k, r) =>
         match skipWs r with
         | ':' :: r2 =>
           (match parseValue fuel r2 with
            | none => none
            | some (v, r3) =>
              match skipWs r3 with
              | ',' :: r4 =>
                (match parseMembers fuel r4 with
                 | some (kvs, r5) => some ((k, v) :: kvs, r5)
                 | none => none)
              | '\x7d' :: r4 => some ([(k, v)], r4)
              | _ => none)
         | _ => none)
    | _ => none

end

/-- Model of `json.loads`: parse a complete JSON document; `none` models a
raised `json.JSONDecodeError`.  The fuel is generous for any input whose
nesting the claims exercise. -/
def json_loads (s : String) : Option Json :=
  match parseValue (2 * s.length + 2) s.data with
  | some (v, rest) => if skipWs rest = [] then some v else none
  | none => none

/-! ## Tool definitions and the registry (`tools/base.py`, `tools/registry.py`) -/

/-- A tool as the adapters and the registry see it: the three abstract
properties of `BaseTool`. -/
structure BaseTool where
  name : String
  description : String
  parameters_schema : Json

/-- The registry's `_tools` dictionary: an insertion-ordered map from tool
name to tool (Python dictionaries preserve insertion order). -/
abbrev ToolRegistry := List (String × BaseTool)

/-- `ToolRegistry.register_tool`: raising `ValueError` before the store is
modelled by returning the unchanged registry together with the error
message; a successful registration appends the binding and returns no
error. -/
def registerTool (reg : ToolRegistry) (tool : BaseTool) : ToolRegistry × Option String :=
  if (reg.lookup tool.name).isSome then
    (reg, some ("Tool \x27" ++ tool.name ++ "\x27 is already registered"))
  else
    (reg ++ [(tool.name, tool)], none)

/-- `ToolRegistry.list_tools`: the keys of `_tools`, in order. -/
def listTools (reg : ToolRegistry) : List String :=
  reg.map Prod.fst

/-- One entry of `ToolRegistry.get_tool_schemas`. -/
structure ToolSchemaEntry where
  name : String
  description : String
  parameters : Json

/-- `ToolRegistry.get_tool_schemas`: one schema dictionary per registered
tool, iterating `_tools.items()` in order. -/
def getToolSchemas (reg : ToolRegistry) : List ToolSchemaEntry :=
  reg.map fun entry =>
    { name := entry.2.name
      description := entry.2.description
      parameters := entry.2.parameters_schema }

/-- `BaseTool.validate_parameters`: shallow check that every name listed in
the schema's `required` array is a key of `parameters`.  A schema without a
`required` key loops over the empty list (our embedded schemas always carry
a `required` array, so the non-array case is unreachable here). -/
def validateParameters (schema : Json) (parameters : PyDict) : Bool :=
  match schema with
  | .obj entries =>
    match entries.lookup "required" with
    | some (.arr required) =>
      required.all fun field =>
        match field with
        | .str s => (parameters.lookup s).isSome
        | _ => false
    | _ => true
  | _ => true

/-! ## Encoding the tool catalog (`format_tools` of both adapters) -/

/-- The `function` payload of an OpenAI tool definition. -/
structure OAIFunctionSpec where
  name : String
  description : String
  parameters : Json

/-- One OpenAI tool definition: a `type: "function"` wrapper. -/
structure OAIToolSpec where
  type : String
  function : OAIFunctionSpec

/-- `OpenAIAdapter.format_tools`. -/
def oaiFormatTools (tools : List BaseTool) : List OAIToolSpec :=
  tools.map fun tool =>
    { type := "function"
      function :=
        { name := tool.name
          description := tool.description
          parameters := tool.parameters_schema } }

/-- One Anthropic tool definition. -/
structure AnthropicToolSpec where
  name : String
  description : String
  input_schema : Json

/-- `AnthropicAdapter.format_tools`. -/
def anthropicFormatTools (tools : List BaseTool) : List AnthropicToolSpec :=
  tools.map fun tool =>
    { name := tool.name
      description := tool.description
      input_schema := tool.parameters_schema }

/-! ## Decoding completed responses (`parse_tool_calls`) -/

/-- A decoded tool call in the adapters' standardized shape
(`id` / `tool_name` / `parameters`). -/
structure StandardToolCall where
  id : String
  tool_name : String
  parameters : Json

/-- The `function` attribute of an OpenAI response tool call. -/
structure OAIFunctionCall where
  name : String
  arguments : String

/-- One tool call inside an OpenAI chat completion message. -/
structure OAIToolCall where
  id : String
  function : OAIFunctionCall

/-- The message of an OpenAI choice.  The outer `Option` models the
`tool_calls` attribute being absent, the inner one models the attribute
holding Python `None`. -/
structure OAIMessage where
  tool_calls : Option (Option (List OAIToolCall))

/-- One choice of an OpenAI chat completion response. -/
structure OAIChoice where
  message : OAIMessage

/-- An OpenAI chat completion response; `choices = none` models a response
object without a `choices` attribute. -/
structure OAIResponse where
  choices : Option (List OAIChoice)

/-- The loop body of `OpenAIAdapter.parse_tool_calls`: the `arguments`
JSON string is parsed with `json.loads`, and a decode failure is replaced
by an empty object. -/
def oaiStandardizeCall (tool_call : OAIToolCall) : StandardToolCall :=
  { id := tool_call.id
    tool_name := tool_call.function.name
    parameters :=
      match json_loads tool_call.function.arguments with
      | some v => v
      | none => .obj [] }

/-- `OpenAIAdapter.parse_tool_calls`. -/
def oaiParseToolCalls (response : OAIResponse) : List StandardToolCall :=
  match response.choices with
  | none => []
  | some [] => []
  | some (choice :: _) =>
    match choice.message.tool_calls with
    | none => []
    | some none => []
    | some (some tool_calls) => tool_calls.map oaiStandardizeCall

/-- One content block of an Anthropic response.  `type = none` models a
block without a `type` attribute; the remaining fields are only read by the
code when `type` is the string `tool_use`. -/
structure AnthropicContentBlock where
  type : Option String
  id : String
  name : String
  input : Json

/-- An Anthropic response; `content = none` models a response object
without a `content` attribute. -/
structure AnthropicResponse where
  content : Option (List AnthropicContentBlock)

/-- `AnthropicAdapter.parse_tool_calls`: collect every `tool_use` block. -/
def anthropicParseToolCalls (response : AnthropicResponse) : List StandardToolCall :=
  match response.content with
  | none => []
  | some blocks =>
    blocks.filterMap fun block =>
      if block.type = some "tool_use" then
        some { id := block.id, tool_name := block.name, parameters := block.input }
      else none

/-! ## Encoding tool results (`format_tool_results`) -/

/-- One formatted OpenAI tool-result message (`role: "tool"`). -/
structure OAIToolResultMessage where
  role : String
  tool_call_id : Json
  content : String

/-- The loop body of `OpenAIAdapter.format_tool_results`. -/
def oaiFormatOneResult (result : PyDict) : OAIToolResultMessage :=
  { role := "tool"
    tool_call_id := pyGet result "tool_call_id" (.str "")
    content := dumps (pyGet result "result" (.obj [])) }

/-- `OpenAIAdapter.format_tool_results`: one independent `role: "tool"`
message per result. -/
def oaiFormatToolResults (tool_results : List PyDict) : List OAIToolResultMessage :=
  tool_results.map oaiFormatOneResult

/-- One formatted Anthropic `tool_result` content block. -/
structure AnthropicToolResultBlock where
  type : String
  tool_use_id : Json
  content : String

/-- The loop body of `AnthropicAdapter.format_tool_results`. -/
def anthropicFormatOneResult (result : PyDict) : AnthropicToolResultBlock :=
  { type := "tool_result"
    tool_use_id := pyGet result "tool_call_id" (.str "")
    content := dumps (pyGet result "result" (.obj [])) }

/-- `AnthropicAdapter.format_tool_results`: one content block per result. -/
def anthropicFormatToolResults (tool_results : List PyDict) : List AnthropicToolResultBlock :=
  tool_results.map anthropicFormatOneResult

/-- The single user-role message wrapping Anthropic tool results. -/
structure AnthropicToolResultMessage where
  role : String
  content : List AnthropicToolResultBlock

/-- `AnthropicAdapter.create_tool_result_message`. -/
def anthropicCreateToolResultMessage (tool_results : List PyDict) : AnthropicToolResultMessage :=
  { role := "user"
    content := anthropicFormatToolResults tool_results }

/-! ## Streaming decode, Anthropic (`parse_streaming_tool_use`) -/

/-- The `content_block` attribute of a `content_block_start` event; every
field is attribute-presence checked by the code. -/
structure AnthropicStartBlock where
  type : Option String
  id : Option String
  name : Option String

/-- The `delta` attribute of a `content_block_delta` event. -/
structure AnthropicDeltaInfo where
  type : Option String
  partial_json : Option String

/-- One Anthropic streaming event; `none` fields model absent attributes. -/
structure AnthropicStreamEvent where
  type : Option String
  content_block : Option AnthropicStartBlock
  delta : Option AnthropicDeltaInfo

/-- The dictionary returned by `parse_streaming_tool_use`, one shape per
`event` discriminant (an empty dictionary is `empty`). -/
inductive AnthropicStreamFragment where
  | empty
  | tool_use_start (id : Option String) (name : Option String)
  | tool_use_delta (partial_json : String)
  | tool_use_stop

/-- `AnthropicAdapter.parse_streaming_tool_use`. -/
def anthropicParseStreamingToolUse (event : AnthropicStreamEvent) : AnthropicStreamFragment :=
  match event.type with
  | none => .empty
  | some t =>
    if t = "content_block_start" then
      match event.content_block with
      | some block =>
        if block.type = some "tool_use" then .tool_use_start block.id block.name
        else .empty
      | none => .empty
    else if t = "content_block_delta" then
      match event.delta with
      | some delta =>
        if delta.type = some "input_json_delta" then .tool_use_delta (delta.partial_json.getD "")
        else .empty
      | none => .empty
    else if t = "content_block_stop" then .tool_use_stop
    else .empty

/-! ## Streaming decode, OpenAI (`parse_streaming_tool_calls`) -/

/-- The `function` attribute of a streaming tool-call fragment. -/
structure OAIStreamFunction where
  name : Option String
  arguments : Option String

/-- One partial tool call inside a streaming delta; `none` fields model
absent attributes. -/
structure OAIStreamToolCall where
  index : Option Nat
  id : Option String
  function : Option OAIStreamFunction

/-- An OpenAI streaming delta.  The outer `Option` models an absent
`tool_calls` attribute, the inner one the attribute holding `None`. -/
structure OAIStreamDelta where
  tool_calls : Option (Option (List OAIStreamToolCall))

/-- The `function` sub-dictionary of an emitted fragment: only truthy
fields are included. -/
structure OAIFunctionFragment where
  name : Option String
  arguments : Option String

/-- One emitted `call_data` dictionary: `index` is always present, `id`
and `function` only when set. -/
structure OAICallFragment where
  index : Nat
  id : Option String
  function : Option OAIFunctionFragment

/-- The dictionary returned by `parse_streaming_tool_calls`: empty, or a
`tool_calls` list. -/
inductive OAIStreamResult where
  | empty
  | tool_calls (fragments : List OAICallFragment)

/-- Python truthiness of an optional string attribute: `hasattr(o, f) and
o.f` keeps the value only when present and non-empty. -/
def keepTruthy : Option String → Option String
  | some s => if s = "" then none else some s
  | none => none

/-- The loop body of `OpenAIAdapter.parse_streaming_tool_calls`: `index`
defaults to `0` when the attribute is absent; `id` and the `function`
subfields pass through only when truthy; a `function` dictionary is
emitted whenever the fragment has a `function` attribute. -/
def oaiFragmentOf (tool_call : OAIStreamToolCall) : OAICallFragment :=
  { index := tool_call.index.getD 0
    id := keepTruthy tool_call.id
    function :=
      tool_call.function.map fun f =>
        { name := keepTruthy f.name
          arguments := keepTruthy f.arguments } }

/-- `OpenAIAdapter.parse_streaming_tool_calls`. -/
def oaiParseStreamingToolCalls (delta : OAIStreamDelta) : OAIStreamResult :=
  match delta.tool_calls with
  | none => .empty
  | some none => .empty
  | some (some tool_calls) => .tool_calls (tool_calls.map oaiFragmentOf)

/-! ## Concrete tool execution (`system_tool.py`, `google_calendar_tool.py`)

The `execute` methods route on an `action` string and catch exceptions.
Their per-action handlers perform operating-system or web I/O, so each
handler is modelled as an abstract effectful function supplied by a
"world" record: it receives the parameters and either returns a result
dictionary or raises.  `Except.error` models an exception crossing the
Tool boundary; everything the method itself returns is `Except.ok`. -/

/-- A raised Python exception, as far as the handlers distinguish them. -/
inductive PyExc where
  | keyError (key : String)
  | httpError (message : String)
  | runtimeError (message : String)

/-- `str(e)` for a raised exception (`KeyError` renders its key quoted). -/
def PyExc.toText : PyExc → String
  | .keyError k => "\x27" ++ k ++ "\x27"
  | .httpError m => m
  | .runtimeError m => m

mutual

/-- `repr` of a decoded-JSON Python value, as far as f-string interpolation
of a non-string `action` needs it (string escaping inside `repr` is not
modelled; the claims only interpolate plain values). -/
def pyRepr : Json → String
  | .null => "None"
  | .bool true => "True"
  | .bool false => "False"
  | .num n => toString n
  | .str s => "\x27" ++ s ++ "\x27"
  | .arr xs => "[" ++ pyReprElems xs ++ "]"
  | .obj kvs => "\x7b" ++ pyReprEntries kvs ++ "\x7d"

/-- `repr` of list elements. -/
def pyReprElems : List Json → String
  | [] => ""
  | [x] => pyRepr x
  | x :: y :: xs => pyRepr x ++ ", " ++ pyReprElems (y :: xs)

/-- `repr` of dictionary entries. -/
def pyReprEntries : List (String × Json) → String
  | [] => ""
  | [(k, v)] => "\x27" ++ k ++ "\x27: " ++ pyRepr v
  | (k, v) :: e :: es => "\x27" ++ k ++ "\x27: " ++ pyRepr v ++ ", " ++ pyReprEntries (e :: es)

end

/-- `str(x)` as used by f-string interpolation: strings verbatim, other
values as their `repr`. -/
def pyFString : Json → String
  | .str s => s
  | v => pyRepr v

/-- The structured failure dictionary the tools build. -/
def failDict (message : String) : Json :=
  .obj [("success", .bool false), ("error", .str message)]

/-- The I/O behavior of the thirteen `SystemTool` action handlers. -/
structure SysWorld where
  create_file : PyDict → Except PyExc Json
  read_file : PyDict → Except PyExc Json
  edit_file : PyDict → Except PyExc Json
  delete_file : PyDict → Except PyExc Json
  list_files : PyDict → Except PyExc Json
  set_brightness : PyDict → Except PyExc Json
  get_brightness : PyDict → Except PyExc Json
  set_volume : PyDict → Except PyExc Json
  get_volume : PyDict → Except PyExc Json
  open_app : PyDict → Except PyExc Json
  close_app : PyDict → Except PyExc Json
  list_running_apps : PyDict → Except PyExc Json
  activate_app : PyDict → Except PyExc Json

/-- The `try:` body of `SystemTool.execute`: route on the `action` value. -/
def systemDispatch (w : SysWorld) (parameters : PyDict) (action : Json) : Except PyExc Json :=
  match action with
  | .str s =>
    if s = "create_file" then w.create_file parameters
    else if s = "read_file" then w.read_file parameters
    else if s = "edit_file" then w.edit_file parameters
    else if s = "delete_file" then w.delete_file parameters
    else if s = "list_files" then w.list_files parameters
    else if s = "set_brightness" then w.set_brightness parameters
    else if s = "get_brightness" then w.get_brightness parameters
    else if s = "set_volume" then w.set_volume parameters
    else if s = "get_volume" then w.get_volume parameters
    else if s = "open_app" then w.open_app parameters
    else if s = "close_app" then w.close_app parameters
    else if s = "list_running_apps" then w.list_running_apps parameters
    else if s = "activate_app" then w.activate_app parameters
    else .ok (failDict ("Unknown action: " ++ s))
  | a => .ok (failDict ("Unknown action: " ++ pyFString a))

/-- `SystemTool.execute`.  The subscript `parameters["action"]` is
evaluated before the `try:` block, so a missing `action` key raises
`KeyError` across the Tool boundary; every exception inside the `try:`
body is converted to a structured failure dictionary. -/
def systemExecute (w : SysWorld) (parameters : PyDict) : Except PyExc Json :=
  match parameters.lookup "action" with
  | none => .error (.keyError "action")
  | some action =>
    match systemDispatch w parameters action with
    | .ok r => .ok r
    | .error e => .ok (failDict ("Error executing " ++ pyFString action ++ ": " ++ e.toText))

/-- `GoogleCalendarTool.parameters_schema`, embedded verbatim. -/
def googleCalendarSchema : Json :=
  .obj
    [("type", .str "object"),
     ("properties", .obj
       [("action", .obj
          [("type", .str "string"),
           ("enum", .arr [.str "list_events", .str "create_event", .str "update_event",
                          .str "delete_event", .str "search_events"]),
           ("description", .str "The calendar action to perform")]),
        ("time_min", .obj
          [("type", .str "string"),
           ("description", .str "Start time for listing/searching events (ISO 8601 format, e.g., \x272024-01-01T00:00:00Z\x27)")]),
        ("time_max", .obj
          [("type", .str "string"),
           ("description", .str "End time for listing/searching events (ISO 8601 format)")]),
        ("max_results", .obj
          [("type", .str "integer"),
           ("description", .str "Maximum number of events to return (default: 10, max: 250)"),
           ("default", .num 10)]),
        ("event_id", .obj
          [("type", .str "string"),
           ("description", .str "ID of the event (required for update_event and delete_event)")]),
        ("summary", .obj
          [("type", .str "string"),
           ("description", .str "Event title/summary (required for create_event)")]),
        ("description", .obj
          [("type", .str "string"),
           ("description", .str "Event description/details")]),
        ("start_time", .obj
          [("type", .str "string"),
           ("description", .str "Event start time (ISO 8601 format, required for create_event)")]),
        ("end_time", .obj
          [("type", .str "string"),
           ("description", .str "Event end time (ISO 8601 format, required for create_event)")]),
        ("attendees", .obj
          [("type", .str "array"),
           ("items", .obj [("type", .str "string")]),
           ("description", .str "List of attendee email addresses")]),
        ("location", .obj
          [("type", .str "string"),
           ("description", .str "Event location")]),
        ("query", .obj
          [("type", .str "string"),
           ("description", .str "Search query for finding events")]),
        ("calendar_id", .obj
          [("type", .str "string"),
           ("description", .str "Calendar ID (default: \x27primary\x27)"),
           ("default", .str "primary")])]),
     ("required", .arr [.str "action"])]

/-- The I/O behavior of the Google Calendar service: building the
credentials/service object, and the five action handlers. -/
structure CalWorld where
  build_service : Except PyExc Unit
  list_events : PyDict → Except PyExc Json
  create_event : PyDict → Except PyExc Json
  update_event : PyDict → Except PyExc Json
  delete_event : PyDict → Except PyExc Json
  search_events : PyDict → Except PyExc Json

/-- The `try:` body of `GoogleCalendarTool.execute`: build the service,
then route on the `action` value. -/
def googleDispatch (w : CalWorld) (parameters : PyDict) (action : Json) : Except PyExc Json :=
  match w.build_service with
  | .error e => .error e
  | .ok _ =>
    match action with
    | .str s =>
      if s = "list_events" then w.list_events parameters
      else if s = "create_event" then w.create_event parameters
      else if s = "update_event" then w.update_event parameters
      else if s = "delete_event" then w.delete_event parameters
      else if s = "search_events" then w.search_events parameters
      else .ok (failDict ("Unknown action: " ++ s))
    | a => .ok (failDict ("Unknown action: " ++ pyFString a))

/-- `GoogleCalendarTool.execute`.  The context check comes first (`not
context` and the key test collapse to: no context dictionary, or no
`google_access_token` key), then the shallow parameter validation; the
`try:` body converts `HttpError` and any other exception to structured
failures. -/
def googleExecute (w : CalWorld) (parameters : PyDict) (context : Option PyDict) :
    Except PyExc Json :=
  match context with
  | none => .ok (failDict "Google access token required in context")
  | some ctx =>
    match ctx.lookup "google_access_token" with
    | none => .ok (failDict "Google access token required in context")
    | some _ =>
      if validateParameters googleCalendarSchema parameters then
        match parameters.lookup "action" with
        | none => .error (.keyError "action")
        | some action =>
          match googleDispatch w parameters action with
          | .ok r => .ok r
          | .error (.httpError m) => .ok (failDict ("Google Calendar API error: " ++ m))
          | .error e => .ok (failDict ("Unexpected error: " ++ e.toText))
      else .ok (failDict "Invalid parameters")

/-! ## General lemmas -/

/-- Looking a key up after appending a binding for it finds that binding,
provided the key was absent before. -/
theorem lookup_append_singleton (reg : ToolRegistry) (n : String) (t : BaseTool)
    (h : reg.lookup n = none) : (reg ++ [(n, t)]).lookup n = some t := by
  induction reg with
  | nil => simp [List.lookup]
  | cons p l ih =>
    obtain ⟨k, v⟩ := p
    cases hk : (n == k) with
    | true => simp [List.lookup, hk] at h
    | false =>
      simp only [List.cons_append, List.lookup, hk] at h ⊢
      exact ih h

/-- A registry is well formed when every binding's key is the stored
tool's own name; `register_tool` only ever creates such bindings. -/
def RegistryWF (reg : ToolRegistry) : Prop :=
  ∀ p ∈ reg, p.1 = p.2.name

/-- Registration preserves registry well-formedness. -/
theorem registerTool_preserves_wf (reg : ToolRegistry) (tool : BaseTool)
    (h : RegistryWF reg) : RegistryWF (registerTool reg tool).1 := by
  unfold registerTool
  by_cases hc : (reg.lookup tool.name).isSome
  · simpa [hc] using h
  · simp only [hc, if_false, Bool.false_eq_true]
    intro p hp
    rcases List.mem_append.mp hp with hmem | hmem
    · exact h p hmem
    · rw [List.mem_singleton.mp hmem]

/-! ## Claims -/

/-- C1: On the input `[ { tool_call_id: "c1", result: { ok: true } } ]` the
OpenAI-style adapter returns exactly one `role: "tool"` message with
`tool_call_id "c1"` and content the JSON text of the result, while the
Anthropic-style `create_tool_result_message` returns one user-role message
whose content is the single matching `tool_result` block; in general the
OpenAI-style adapter emits one independent message per result and the
Anthropic-style adapter wraps all blocks into a single user message. -/
theorem c1_tool_result_encoding :
    oaiFormatToolResults [[("tool_call_id", Json.str "c1"), ("result", Json.obj [("ok", Json.bool true)])]] =
      [{ role := "tool", tool_call_id := Json.str "c1", content := "\x7b\"ok\": true\x7d" }] ∧
    anthropicCreateToolResultMessage
        [[("tool_call_id", Json.str "c1"), ("result", Json.obj [("ok", Json.bool true)])]] =
      { role := "user",
        content := [{ type := "tool_result", tool_use_id := Json.str "c1",
                      content := "\x7b\"ok\": true\x7d" }] } ∧
    (∀ tool_results : List PyDict,
      (oaiFormatToolResults tool_results).length = tool_results.length) ∧
    (∀ tool_results : List PyDict,
      (anthropicCreateToolResultMessage tool_results).role = "user" ∧
      (anthropicCreateToolResultMessage tool_results).content = anthropicFormatToolResults tool_results ∧
      (anthropicFormatToolResults tool_results).length = tool_results.length) := by
  refine ⟨rfl, rfl, ?_, ?_⟩
  · intro tool_results
    simp [oaiFormatToolResults]
  · intro tool_results
    exact ⟨rfl, rfl, by simp [anthropicFormatToolResults]⟩

/-- C5: Registering a tool whose name is already a registry key fails with
the duplicate-tool error and leaves the registry mapping unchanged;
registering a fresh name succeeds and stores the tool under that name. -/
theorem c5_register_tool_correct (reg : ToolRegistry) (tool : BaseTool) :
    ((reg.lookup tool.name).isSome →
      registerTool reg tool =
        (reg, some ("Tool \x27" ++ tool.name ++ "\x27 is already registered"))) ∧
    (reg.lookup tool.name = none →
      (registerTool reg tool).2 = none ∧
      (registerTool reg tool).1 = reg ++ [(tool.name, tool)] ∧
      (registerTool reg tool).1.lookup tool.name = some tool) := by
  constructor
  · intro h
    simp [registerTool, h]
  · intro h
    refine ⟨?_, ?_, ?_⟩ <;> simp only [registerTool, h, Option.isSome_none, Bool.false_eq_true,
      if_false]
    exact lookup_append_singleton reg tool.name tool h

/-- C5 witness: a duplicate registration of the name `system` fails and
returns the unchanged registry; a fresh registration stores the tool. -/
theorem c5_witness :
    registerTool [("system", ⟨"system", "a", Json.null⟩)] ⟨"system", "b", Json.null⟩ =
      ([("system", ⟨"system", "a", Json.null⟩)], some "Tool \x27system\x27 is already registered") ∧
    (registerTool [] ⟨"system", "a", Json.null⟩).1.lookup "system" =
      some ⟨"system", "a", Json.null⟩ :=
  ⟨(c5_register_tool_correct [("system", ⟨"system", "a", Json.null⟩)] ⟨"system", "b", Json.null⟩).1 rfl,
   ((c5_register_tool_correct [] ⟨"system", "a", Json.null⟩).2 rfl).2.2⟩

/-- C8: Both catalog encoders emit one provider-shaped entry per tool, in
input order, and the name, description and schema of every tool are
recovered exactly by projecting the provider shape back out. -/
theorem c8_format_tools_roundtrip (tools : List BaseTool) :
    oaiFormatTools tools =
      tools.map (fun tool =>
        { type := "function"
          function :=
            { name := tool.name, description := tool.description,
              parameters := tool.parameters_schema } }) ∧
    anthropicFormatTools tools =
      tools.map (fun tool =>
        { name := tool.name, description := tool.description,
          input_schema := tool.parameters_schema }) ∧
    (oaiFormatTools tools).map
        (fun e => (e.function.name, e.function.description, e.function.parameters)) =
      tools.map (fun t => (t.name, t.description, t.parameters_schema)) ∧
    (anthropicFormatTools tools).map (fun e => (e.name, e.description, e.input_schema)) =
      tools.map (fun t => (t.name, t.description, t.parameters_schema)) := by
  refine ⟨rfl, rfl, ?_, ?_⟩ <;> simp [oaiFormatTools, anthropicFormatTools]

/-- C9: The schema export has one `name`/`description`/`parameters` entry
per registered tool, and its sequence of names equals `list_tools()`. -/
theorem c9_schema_export_aligned (reg : ToolRegistry) (h : RegistryWF reg) :
    (getToolSchemas reg).length = reg.length ∧
    (getToolSchemas reg).map ToolSchemaEntry.name = listTools reg ∧
    getToolSchemas reg =
      reg.map (fun p =>
        { name := p.2.name, description := p.2.description,
          parameters := p.2.parameters_schema }) := by
  refine ⟨by simp [getToolSchemas], ?_, rfl⟩
  simp only [getToolSchemas, listTools, List.map_map]
  exact List.map_congr_left fun p hp => (h p hp).symm

/-- C9 witness: on a singleton registry the exported schema names equal
the listed tool names. -/
theorem c9_witness :
    (getToolSchemas [("system", ⟨"system", "d", Json.null⟩)]).map ToolSchemaEntry.name =
      listTools [("system", ⟨"system", "d", Json.null⟩)] :=
  (c9_schema_export_aligned [("system", ⟨"system", "d", Json.null⟩)]
    (fun p hp => by rw [List.mem_singleton.mp hp])).2.1

/-- C2: The Anthropic-style incremental decode emits a `tool_use_start`
fragment with the block's id and name for a `content_block_start` event
whose block has type `tool_use`, a `tool_use_delta` fragment carrying the
partial JSON for a `content_block_delta` event whose delta has type
`input_json_delta`, a `tool_use_stop` fragment for `content_block_stop`,
and an empty fragment for any other discriminant or a typeless event. -/
theorem c2_parse_streaming_tool_use_cases (event : AnthropicStreamEvent) :
    (∀ block, event.type = some "content_block_start" → event.content_block = some block →
      block.type = some "tool_use" →
      anthropicParseStreamingToolUse event = .tool_use_start block.id block.name) ∧
    (∀ delta, event.type = some "content_block_delta" → event.delta = some delta →
      delta.type = some "input_json_delta" →
      anthropicParseStreamingToolUse event = .tool_use_delta (delta.partial_json.getD "")) ∧
    (event.type = some "content_block_stop" →
      anthropicParseStreamingToolUse event = .tool_use_stop) ∧
    (event.type = none → anthropicParseStreamingToolUse event = .empty) ∧
    (∀ t, event.type = some t → t ≠ "content_block_start" → t ≠ "content_block_delta" →
      t ≠ "content_block_stop" → anthropicParseStreamingToolUse event = .empty) := by
  obtain ⟨ty, cb, dl⟩ := event
  refine ⟨?_, ?_, ?_, ?_, ?_⟩
  · intro block h1 h2 h3
    obtain ⟨bt, bid, bname⟩ := block
    simp only at h1 h2 h3
    subst h1 h2 h3
    rfl
  · intro delta h1 h2 h3
    obtain ⟨dt, dj⟩ := delta
    simp only at h1 h2 h3
    subst h1 h2 h3
    rfl
  · intro h1
    simp only at h1
    subst h1
    rfl
  · intro h1
    simp only at h1
    subst h1
    rfl
  · intro t h1 h2 h3 h4
    simp only at h1
    subst h1
    simp [anthropicParseStreamingToolUse, h2, h3, h4]

/-- C2 witness: the four event shapes decoded at concrete inputs. -/
theorem c2_witness :
    anthropicParseStreamingToolUse
        ⟨some "content_block_start", some ⟨some "tool_use", some "t1", some "search"⟩, none⟩ =
      .tool_use_start (some "t1") (some "search") ∧
    anthropicParseStreamingToolUse
        ⟨some "content_block_delta", none, some ⟨some "input_json_delta", some "\x7b\"q\":"⟩⟩ =
      .tool_use_delta "\x7b\"q\":" ∧
    anthropicParseStreamingToolUse ⟨some "content_block_stop", none, none⟩ = .tool_use_stop ∧
    anthropicParseStreamingToolUse ⟨some "message_start", none, none⟩ = .empty :=
  ⟨(c2_parse_streaming_tool_use_cases _).1 _ rfl rfl rfl,
   (c2_parse_streaming_tool_use_cases _).2.1 ⟨some "input_json_delta", some "\x7b\"q\":"⟩
     rfl rfl rfl,
   (c2_parse_streaming_tool_use_cases _).2.2.1 rfl,
   (c2_parse_streaming_tool_use_cases _).2.2.2.2 "message_start" rfl
     (by decide) (by decide) (by decide)⟩

/-- C3: On every response carrying zero tool-call content — no `choices`
attribute or an empty choices list, a first-choice message whose
`tool_calls` attribute is absent or `None` (OpenAI-style), no `content`
attribute, or content blocks none of which are `tool_use` blocks
(Anthropic-style) — `parse_tool_calls` of either adapter returns the empty
list (the decode is total, so no error is ever raised). -/
theorem c3_zero_tool_calls_empty :
    (∀ r : OAIResponse, r.choices = none → oaiParseToolCalls r = []) ∧
    (∀ r : OAIResponse, r.choices = some [] → oaiParseToolCalls r = []) ∧
    (∀ r : OAIResponse, ∀ choice rest, r.choices = some (choice :: rest) →
      choice.message.tool_calls = none → oaiParseToolCalls r = []) ∧
    (∀ r : OAIResponse, ∀ choice rest, r.choices = some (choice :: rest) →
      choice.message.tool_calls = some none → oaiParseToolCalls r = []) ∧
    (∀ r : AnthropicResponse, r.content = none → anthropicParseToolCalls r = []) ∧
    (∀ r : AnthropicResponse, ∀ blocks, r.content = some blocks →
      (∀ b ∈ blocks, b.type ≠ some "tool_use") → anthropicParseToolCalls r = []) := by
  refine ⟨?_, ?_, ?_, ?_, ?_, ?_⟩
  · intro r h
    obtain ⟨cs⟩ := r
    simp only at h
    subst h
    rfl
  · intro r h
    obtain ⟨cs⟩ := r
    simp only at h
    subst h
    rfl
  · intro r choice rest h1 h2
    obtain ⟨cs⟩ := r
    obtain ⟨⟨tcs⟩⟩ := choice
    simp only at h1 h2
    subst h1 h2
    rfl
  · intro r choice rest h1 h2
    obtain ⟨cs⟩ := r
    obtain ⟨⟨tcs⟩⟩ := choice
    simp only at h1 h2
    subst h1 h2
    rfl
  · intro r h
    obtain ⟨c⟩ := r
    simp only at h
    subst h
    rfl
  · intro r blocks h1 h2
    obtain ⟨c⟩ := r
    simp only at h1
    subst h1
    simp only [anthropicParseToolCalls]
    rw [List.filterMap_eq_nil_iff]
    intro b hb
    simp [h2 b hb]

/-- C3 witness: six concrete zero-tool-call responses decode to `[]`. -/
theorem c3_witness :
    oaiParseToolCalls ⟨none⟩ = [] ∧
    oaiParseToolCalls ⟨some []⟩ = [] ∧
    oaiParseToolCalls ⟨some [⟨⟨none⟩⟩]⟩ = [] ∧
    oaiParseToolCalls ⟨some [⟨⟨some none⟩⟩]⟩ = [] ∧
    anthropicParseToolCalls ⟨none⟩ = [] ∧
    anthropicParseToolCalls ⟨some [⟨some "text", "", "", Json.null⟩]⟩ = [] :=
  ⟨c3_zero_tool_calls_empty.1 _ rfl,
   c3_zero_tool_calls_empty.2.1 _ rfl,
   c3_zero_tool_calls_empty.2.2.1 _ _ [] rfl rfl,
   c3_zero_tool_calls_empty.2.2.2.1 _ _ [] rfl rfl,
   c3_zero_tool_calls_empty.2.2.2.2.1 _ rfl,
   c3_zero_tool_calls_empty.2.2.2.2.2 _ _ rfl (by
     intro b hb
     rw [List.mem_singleton.mp hb]
     decide)⟩

/-- C4: When an OpenAI-style response does carry tool calls, the decode is
the elementwise standardization of the raw list — so a malformed
`arguments` string in one entry cannot affect the others — and an entry
whose `arguments` string fails to parse as JSON (such as the string
starting with brace-bad-json) is standardized with an empty `parameters`
object rather than raising. -/
theorem c4_malformed_arguments_tolerated (response : OAIResponse) (choice : OAIChoice)
    (rest : List OAIChoice) (tool_calls : List OAIToolCall)
    (h1 : response.choices = some (choice :: rest))
    (h2 : choice.message.tool_calls = some (some tool_calls)) :
    oaiParseToolCalls response = tool_calls.map oaiStandardizeCall ∧
    (∀ tc ∈ tool_calls, json_loads tc.function.arguments = none →
      oaiStandardizeCall tc =
        { id := tc.id, tool_name := tc.function.name, parameters := Json.obj [] }) ∧
    json_loads "\x7bbad json" = none := by
  refine ⟨?_, ?_, rfl⟩
  · obtain ⟨cs⟩ := response
    obtain ⟨⟨tcs⟩⟩ := choice
    simp only at h1 h2
    subst h1 h2
    rfl
  · intro tc _ h
    simp [oaiStandardizeCall, h]

/-- C4 witness: a response with one malformed-arguments call and one
well-formed call decodes to empty parameters for the first and the parsed
object for the second. -/
theorem c4_witness :
    oaiParseToolCalls
        ⟨some [⟨⟨some (some
          [⟨"call_1", ⟨"search", "\x7bbad json"⟩⟩,
           ⟨"call_2", ⟨"calendar", "\x7b\"q\": 1\x7d"⟩⟩])⟩⟩]⟩ =
      [⟨"call_1", "search", Json.obj []⟩,
       ⟨"call_2", "calendar", Json.obj [("q", Json.num 1)]⟩] := by
  have h := c4_malformed_arguments_tolerated
    ⟨some [⟨⟨some (some
      [⟨"call_1", ⟨"search", "\x7bbad json"⟩⟩,
       ⟨"call_2", ⟨"calendar", "\x7b\"q\": 1\x7d"⟩⟩])⟩⟩]⟩
    ⟨⟨some (some
      [⟨"call_1", ⟨"search", "\x7bbad json"⟩⟩,
       ⟨"call_2", ⟨"calendar", "\x7b\"q\": 1\x7d"⟩⟩])⟩⟩
    [] _ rfl rfl
  rw [h.1]
  rfl

/-- C7 counterexample: a streaming tool-call fragment carrying no fields
at all still produces an emitted fragment with `index` present and equal
to `0` — the decode synthesizes the `index` field that was absent from the
delta, so the claim that no missing field is synthesized fails. -/
theorem c7_counterexample :
    (OAIStreamToolCall.mk none none none).index = none ∧
    oaiParseStreamingToolCalls ⟨some (some [⟨none, none, none⟩])⟩ =
      .tool_calls [{ index := 0, id := none, function := none }] :=
  ⟨rfl, rfl⟩

/-- C7 (amended): the decode returns an empty fragment when the delta
carries no tool-call list (attribute absent or `None`); otherwise it emits
one fragment per partial call in which `id`, `function.name` and
`function.arguments` are passed through only when present and non-empty, a
`function` object is emitted whenever the call has a `function` attribute,
and `index` is always emitted, defaulting to `0` when absent. -/
theorem c7_streaming_passthrough_amended (delta : OAIStreamDelta) :
    (delta.tool_calls = none → oaiParseStreamingToolCalls delta = .empty) ∧
    (delta.tool_calls = some none → oaiParseStreamingToolCalls delta = .empty) ∧
    (∀ tool_calls, delta.tool_calls = some (some tool_calls) →
      oaiParseStreamingToolCalls delta = .tool_calls (tool_calls.map oaiFragmentOf)) ∧
    (∀ tc : OAIStreamToolCall,
      (oaiFragmentOf tc).index = tc.index.getD 0 ∧
      (oaiFragmentOf tc).id = keepTruthy tc.id ∧
      (tc.function = none → (oaiFragmentOf tc).function = none) ∧
      (∀ f, tc.function = some f →
        (oaiFragmentOf tc).function = some ⟨keepTruthy f.name, keepTruthy f.arguments⟩)) ∧
    keepTruthy none = none ∧
    keepTruthy (some "") = none ∧
    (∀ s : String, s ≠ "" → keepTruthy (some s) = some s) := by
  obtain ⟨tcs⟩ := delta
  refine ⟨?_, ?_, ?_, ?_, rfl, rfl, ?_⟩
  · intro h
    simp only at h
    subst h
    rfl
  · intro h
    simp only at h
    subst h
    rfl
  · intro tool_calls h
    simp only at h
    subst h
    rfl
  · intro tc
    refine ⟨rfl, rfl, ?_, ?_⟩
    · intro h
      simp [oaiFragmentOf, h]
    · intro f h
      simp [oaiFragmentOf, h]
  · intro s h
    simp [keepTruthy, h]

/-- C7 witness: a fragment with index `1`, a non-empty id, a function name
and an empty arguments string passes through exactly the truthy fields. -/
theorem c7_witness :
    oaiParseStreamingToolCalls
        ⟨some (some [⟨some 1, some "call_1", some ⟨some "search", some ""⟩⟩])⟩ =
      .tool_calls [⟨1, some "call_1", some ⟨some "search", none⟩⟩] := by
  have h := c7_streaming_passthrough_amended
    ⟨some (some [⟨some 1, some "call_1", some ⟨some "search", some ""⟩⟩])⟩
  rw [h.2.2.1 _ rfl]
  rfl

/-- C10: A tool-result entry without a `result` key — in particular every
failed execution, which carries `success=false` and an `error` string but
no `result` — is encoded by both adapters with content the JSON text of
the empty object, and is indistinguishable in the provider-bound payload
from a successful entry with an empty result and the same call id: the
success flag and the error message are silently dropped. -/
theorem c10_missing_result_encodes_empty (entry : PyDict)
    (h : entry.lookup "result" = none) :
    (oaiFormatOneResult entry).content = "\x7b\x7d" ∧
    (anthropicFormatOneResult entry).content = "\x7b\x7d" ∧
    (∀ other : PyDict, other.lookup "result" = some (Json.obj []) →
      other.lookup "tool_call_id" = entry.lookup "tool_call_id" →
      oaiFormatOneResult other = oaiFormatOneResult entry ∧
      anthropicFormatOneResult other = anthropicFormatOneResult entry) := by
  refine ⟨?_, ?_, ?_⟩
  · simp [oaiFormatOneResult, pyGet, h, dumps, dumpsEntries]
  · simp [anthropicFormatOneResult, pyGet, h, dumps, dumpsEntries]
  · intro other h1 h2
    constructor
    · simp [oaiFormatOneResult, pyGet, h, h1, h2]
    · simp [anthropicFormatOneResult, pyGet, h, h1, h2]

/-- C10 witness: a failed execution entry (`success=false`, `error`, no
`result`) encodes with content the empty-object text and is equal, as a
provider message, to a successful entry with an empty result. -/
theorem c10_witness :
    (oaiFormatOneResult [("tool_call_id", Json.str "c1"), ("success", Json.bool false),
        ("error", Json.str "boom")]).content = "\x7b\x7d" ∧
    oaiFormatOneResult [("tool_call_id", Json.str "c1"), ("success", Json.bool true),
        ("result", Json.obj [])] =
      oaiFormatOneResult [("tool_call_id", Json.str "c1"), ("success", Json.bool false),
        ("error", Json.str "boom")] := by
  have h := c10_missing_result_encodes_empty
    [("tool_call_id", Json.str "c1"), ("success", Json.bool false), ("error", Json.str "boom")]
    rfl
  exact ⟨h.1, (h.2.2 [("tool_call_id", Json.str "c1"), ("success", Json.bool true),
    ("result", Json.obj [])] rfl rfl).1⟩

/-! ## The Tool execution boundary (C6) -/

/-- A handler that performs no observable work and reports an empty
dictionary. -/
def okHandler : PyDict → Except PyExc Json :=
  fun _ => .ok (.obj [])

/-- A `SystemTool` world whose handlers all succeed trivially. -/
def trivialSysWorld : SysWorld :=
  ⟨okHandler, okHandler, okHandler, okHandler, okHandler, okHandler, okHandler,
   okHandler, okHandler, okHandler, okHandler, okHandler, okHandler⟩

/-- A `GoogleCalendarTool` world whose service builds and whose handlers
all succeed trivially. -/
def trivialCalWorld : CalWorld :=
  ⟨.ok (), okHandler, okHandler, okHandler, okHandler, okHandler⟩

/-- Once the `action` key is present, `SystemTool.execute` can only return
a structured result: every exception raised inside the `try:` body is
converted to a `success=false` dictionary. -/
theorem systemExecute_structured_of_action_present (w : SysWorld) (parameters : PyDict)
    (action : Json) (h : parameters.lookup "action" = some action) :
    ∃ r, systemExecute w parameters = .ok r := by
  simp only [systemExecute, h]
  cases systemDispatch w parameters action with
  | ok r => exact ⟨r, rfl⟩
  | error e => exact ⟨_, rfl⟩

/-- The shallow validation of the calendar schema amounts to the presence
of the `action` key. -/
theorem googleValidate_eq_action_present (parameters : PyDict) :
    validateParameters googleCalendarSchema parameters =
      ((parameters.lookup "action").isSome && true) :=
  rfl

/-- `GoogleCalendarTool.execute` never lets an exception escape: the
context check, the shallow validation and the catch-all handlers cover
every path. -/
theorem googleExecute_never_raises (w : CalWorld) (parameters : PyDict)
    (context : Option PyDict) : ∃ r, googleExecute w parameters context = .ok r := by
  match context with
  | none => exact ⟨_, rfl⟩
  | some ctx =>
    match hctx : ctx.lookup "google_access_token" with
    | none =>
      exact ⟨failDict "Google access token required in context",
        by simp only [googleExecute, hctx]⟩
    | some tok =>
      by_cases hv : validateParameters googleCalendarSchema parameters = true
      · match hac : parameters.lookup "action" with
        | none =>
          rw [googleValidate_eq_action_present, hac] at hv
          exact absurd hv (by decide)
        | some action =>
          cases hd : googleDispatch w parameters action with
          | ok r => exact ⟨r, by simp only [googleExecute, hctx, hv, if_true, hac, hd]⟩
          | error e =>
            cases e with
            | keyError k =>
              exact ⟨failDict ("Unexpected error: " ++ (PyExc.keyError k).toText),
                by simp only [googleExecute, hctx, hv, if_true, hac, hd]⟩
            | httpError m =>
              exact ⟨failDict ("Google Calendar API error: " ++ m),
                by simp only [googleExecute, hctx, hv, if_true, hac, hd]⟩
            | runtimeError m =>
              exact ⟨failDict ("Unexpected error: " ++ (PyExc.runtimeError m).toText),
                by simp only [googleExecute, hctx, hv, if_true, hac, hd]⟩
      · exact ⟨failDict "Invalid parameters", by simp [googleExecute, hctx, hv]⟩

/-- C6 (refuting evaluation): `SystemTool.execute` reads
`parameters["action"]` before its `try:` block, so on a parameters
dictionary without an `action` key it raises `KeyError` across the Tool
boundary instead of returning a structured `success=false` result; by
contrast an unknown action yields a structured failure, and
`GoogleCalendarTool.execute` returns a structured failure when the access
token is missing from the context. -/
theorem c6_system_missing_action_raises :
    systemExecute trivialSysWorld [] = .error (PyExc.keyError "action") ∧
    systemExecute trivialSysWorld [("action", Json.str "fly")] =
      .ok (failDict "Unknown action: fly") ∧
    googleExecute trivialCalWorld [] none =
      .ok (failDict "Google access token required in context") :=
  ⟨rfl, rfl, rfl⟩

end Athena
